import Mathlib

/-
Verification of the Databricks notebook
`Lakehouse_Customer_Churn/02_Train_AutoML_Churn.py`.

The notebook is a linear script: it reads the `churn_features` table,
samples and plots it, prepares a feature dataset by dropping seven columns
and then the rows with missing values, drops / creates / writes / reads
the feature-store table `rac_retail_demo.churn_user_features`, and calls
`automl.classify` on the table read back, with target column `churn`.

Two complementary embeddings are given:
* a functional data-flow model (`runNotebook`) computing the values the
  notebook passes to the external services, parameterised by the random
  sampler used for plotting and by the initial feature-store contents;
* a statement trace (`program`) with the notebook's try/except semantics
  (`exec`), used for the ordering and error-propagation claims.
-/

namespace Churn

/-- A cell of a dataframe; `none` models a missing value (null / NaN). -/
abbrev Value := Option String

/-- A dataframe: column names, and rows whose cell `j` belongs to column `j`. -/
structure Table where
  cols : List String
  rows : List (List Value)
  deriving DecidableEq, Repr

/-- The columns dropped at line 71 of the notebook. -/
def droppedColumns : List String :=
  ["address", "email", "firstname", "lastname", "creation_date",
   "last_activity_date", "last_event"]

/-- Restrict one row to the cells of the columns that are not dropped. -/
def restrictRow (cols dropped : List String) (r : List Value) : List Value :=
  ((cols.zip r).filter (fun p => !(dropped.contains p.1))).map Prod.snd

/-- `df.drop(columns=dropped)`: remove the named columns, keep everything else. -/
def Table.drop (t : Table) (dropped : List String) : Table :=
  { cols := t.cols.filter (fun c => !(dropped.contains c)),
    rows := t.rows.map (restrictRow t.cols dropped) }

/-- A row is complete when none of its cells is missing. -/
def rowComplete (r : List Value) : Bool :=
  r.all (fun v => v.isSome)

/-- `df.dropna()`: keep exactly the rows without a missing value. -/
def Table.dropna (t : Table) : Table :=
  { cols := t.cols, rows := t.rows.filter rowComplete }

/-- Line 27: `database = 'rac_retail_demo'`. -/
def database : String := "rac_retail_demo"

/-- The one feature-store table name the notebook uses: `f'{database}.churn_user_features'`. -/
def featureTableName : String := database ++ ".churn_user_features"

/-- Lines 68-73: the prepared feature dataset (pandas-on-spark `dataset`). -/
def prepareDataset (churn_dataset : Table) : Table :=
  (churn_dataset.drop droppedColumns).dropna

/-- The feature store: a map from table name to stored dataframe. -/
structure FSState where
  tables : List (String × Table)
  deriving DecidableEq

/-- `fs.drop_table(name)`. -/
def FSState.dropTable (s : FSState) (n : String) : FSState :=
  { tables := s.tables.filter (fun p => p.1 != n) }

/-- `fs.create_table(name=..., primary_keys=..., schema=...)`: registers an empty
table with the given schema. -/
def FSState.createTable (s : FSState) (n : String) (_pk : String)
    (schema : List String) : FSState :=
  { tables := (n, { cols := schema, rows := [] }) :: s.tables }

/-- `fs.write_table(df=..., name=..., mode='overwrite')`. -/
def FSState.writeTable (s : FSState) (n : String) (df : Table) : FSState :=
  { tables := (n, df) :: s.tables.filter (fun p => p.1 != n) }

/-- `fs.read_table(name)`. -/
def FSState.readTable (s : FSState) (n : String) : Option Table :=
  (s.tables.find? (fun p => p.1 == n)).map (fun p => p.2)

/-- The empty feature store. -/
def fsEmpty : FSState := { tables := [] }

/-- The values the notebook hands to the external services during one run. -/
structure RunResult where
  plotData : Table
  pdf : Table
  createName : String
  createPrimaryKeys : String
  createSchema : List String
  writeName : String
  writeMode : String
  writeDf : Table
  features : Option Table
  train_dataset : Option Table
  classifyCalls : List (Table × String)

/-- The data flow of the notebook, line by line: read `churn_features`
(line 41), sample for plotting (line 48), drop columns and missing rows
(lines 68-73), convert the full table to pandas for bamboolib (line 78),
drop / create / write / read the feature-store table (lines 103-117),
read it again as `train_dataset` (line 157) and classify with target
`churn` (line 166).  `sampler` models the random `sample(0.01).toPandas()`
step; `fs0` is the feature store before the run. -/
def runNotebook (sampler : Table → Table) (fs0 : FSState)
    (churn_features : Table) : RunResult × FSState :=
  let churn_dataset := churn_features
  let plotData := sampler churn_dataset
  let dataset0 := churn_dataset
  let dataset1 := dataset0.drop droppedColumns
  let dataset := dataset1.dropna
  let pdf := churn_dataset
  let fs1 := fs0.dropTable featureTableName
  let fs2 := fs1.createTable featureTableName ("user_id") dataset.cols
  let fs3 := fs2.writeTable featureTableName dataset
  let features := fs3.readTable featureTableName
  let train_dataset := fs3.readTable featureTableName
  let classifyCalls : List (Table × String) :=
    match train_dataset with
    | some df => [(df, ("churn"))]
    | none => []
  ({ plotData := plotData, pdf := pdf,
     createName := featureTableName, createPrimaryKeys := ("user_id"),
     createSchema := dataset.cols,
     writeName := featureTableName, writeMode := ("overwrite"),
     writeDf := dataset,
     features := features, train_dataset := train_dataset,
     classifyCalls := classifyCalls }, fs3)

/-- The external operations the notebook performs, in source order. -/
inductive Op where
  | sparkSql (sqlText : String)
  | sparkTable (tableName : String)
  | display
  | sampleAndPlot (fracNum fracDen : Nat)
  | pandasApi
  | describe
  | dropColumnsOp (cs : List String)
  | dropnaOp
  | toPandas
  | fsDropTable (tableName : String)
  | fsCreateTable (tableName : String) (primaryKeys : String)
  | fsWriteTable (tableName : String) (mode : String)
  | fsReadTable (tableName : String)
  | automlClassify (targetCol : String)
  deriving DecidableEq, Repr

/-- A statement either calls an operation directly, or wraps it in the
notebook's bare `try: ... except: pass`. -/
inductive Stmt where
  | call (op : Op)
  | tryIgnore (op : Op)
  deriving DecidableEq, Repr

/-- The operation a statement performs. -/
def Stmt.op : Stmt → Op
  | Stmt.call o => o
  | Stmt.tryIgnore o => o

/-- Whether the statement is a direct, unguarded call. -/
def Stmt.isCall : Stmt → Bool
  | Stmt.call _ => true
  | Stmt.tryIgnore _ => false

/-- The notebook as its sequence of statements, in source order
(lines 28, 41, 42, 48-51, 68, 69, 71, 73, 78, 103-107, 109, 116, 117,
118, 157, 161, 166). -/
def program : List Stmt :=
  [ Stmt.call (Op.sparkSql ("USE rac_retail_demo")),
    Stmt.call (Op.sparkTable ("churn_features")),
    Stmt.call Op.display,
    Stmt.call (Op.sampleAndPlot 1 100),
    Stmt.call Op.pandasApi,
    Stmt.call Op.describe,
    Stmt.call (Op.dropColumnsOp droppedColumns),
    Stmt.call Op.dropnaOp,
    Stmt.call Op.toPandas,
    Stmt.tryIgnore (Op.fsDropTable featureTableName),
    Stmt.call (Op.fsCreateTable featureTableName ("user_id")),
    Stmt.call (Op.fsWriteTable featureTableName ("overwrite")),
    Stmt.call (Op.fsReadTable featureTableName),
    Stmt.call Op.display,
    Stmt.call (Op.fsReadTable featureTableName),
    Stmt.call Op.display,
    Stmt.call (Op.automlClassify ("churn")) ]

/-- The operations of the notebook in order, irrespective of guarding. -/
def programOps : List Op := program.map Stmt.op

/-- Run the statements under a failure oracle: a failing direct call stops
execution (the exception propagates); a failing guarded call is ignored
and execution continues.  Returns the operations attempted and whether
the run completed. -/
def exec (fails : Op → Bool) : List Stmt → List Op × Bool
  | [] => ([], true)
  | Stmt.call o :: rest =>
    if fails o then ([o], false)
    else
      let r := exec fails rest
      (o :: r.1, r.2)
  | Stmt.tryIgnore o :: rest =>
    let r := exec fails rest
    (o :: r.1, r.2)

/-- The failure oracle spares every direct (unguarded) call. -/
def callsOk (fails : Op → Bool) : List Stmt → Bool
  | [] => true
  | Stmt.call o :: rest => !(fails o) && callsOk fails rest
  | Stmt.tryIgnore _ :: rest => callsOk fails rest

/-- The feature-store table an operation mutates, if any. -/
def writeTarget : Op → Option String
  | Op.fsDropTable n => some n
  | Op.fsCreateTable n _ => some n
  | Op.fsWriteTable n _ => some n
  | _ => none

/-- The feature-store table an operation touches (read or write), if any. -/
def fsTableName : Op → Option String
  | Op.fsDropTable n => some n
  | Op.fsCreateTable n _ => some n
  | Op.fsWriteTable n _ => some n
  | Op.fsReadTable n => some n
  | _ => none

/-- A two-row table with a duplicated `user_id` and differing `churn` labels. -/
def dupTable : Table :=
  { cols := [("user_id"), ("churn")],
    rows := [[some ("u1"), some ("1")], [some ("u1"), some ("0")]] }

/-- Reading a name other than the one just written is reading the filtered tail. -/
theorem find?_filter_ne (n m : String) (h : ¬ n = m) :
    ∀ l : List (String × Table),
      (l.filter (fun p => p.1 != m)).find? (fun p => p.1 == n)
        = l.find? (fun p => p.1 == n) := by
  intro l
  induction l with
  | nil => rfl
  | cons p l ih =>
    by_cases hm : p.1 = m
    · have h2 : (p.1 == n) = false := by
        refine beq_eq_false_iff_ne.mpr ?_
        intro he
        exact h (he ▸ hm)
      have h1 : (p.1 != m) = false := by simp [bne, hm]
      simp [List.filter_cons, h1, List.find?, h2, ih]
    · have h1 : (p.1 != m) = true := by simp [bne, hm]
      by_cases hn : p.1 = n
      · have h2 : (p.1 == n) = true := by simp [hn]
        simp [List.filter_cons, h1, List.find?, h2]
      · have h2 : (p.1 == n) = false := beq_eq_false_iff_ne.mpr hn
        simp [List.filter_cons, h1, List.find?, h2, ih]

/-- If no unguarded call fails, every statement runs and the run completes. -/
theorem exec_ok (fails : Op → Bool) :
    ∀ l : List Stmt, callsOk fails l = true →
      exec fails l = (l.map Stmt.op, true) := by
  intro l
  induction l with
  | nil => intro _; rfl
  | cons s rest ih =>
    intro h
    cases s with
    | call o =>
      simp only [callsOk, Bool.and_eq_true, Bool.not_eq_true'] at h
      simp [exec, h.1, ih h.2, Stmt.op]
    | tryIgnore o =>
      simp only [callsOk] at h
      simp [exec, ih h, Stmt.op]

/-- If some unguarded call fails, the run does not complete. -/
theorem exec_abort (fails : Op → Bool) :
    ∀ l : List Stmt, callsOk fails l = false →
      (exec fails l).2 = false := by
  intro l
  induction l with
  | nil => intro h; simp [callsOk] at h
  | cons s rest ih =>
    intro h
    cases s with
    | call o =>
      rcases Bool.eq_false_or_eq_true (fails o) with hf | hf
      · simp [exec, hf]
      · simp only [callsOk, hf, Bool.not_false, Bool.true_and] at h
        simp [exec, hf, ih h]
    | tryIgnore o =>
      simp only [callsOk] at h
      simp [exec, ih h]

/-- C1: the dataset written to the feature store is obtained from the loaded
`churn_features` table by exactly the two transformations of lines 71 and 73:
dropping the seven listed columns, then dropping every row with a missing
value; every surviving row is the unchanged restriction of an input row to
the surviving columns, and the surviving columns are the input columns not
listed for dropping. -/
theorem C1_written_dataset_is_drop_then_dropna
    (sampler : Table → Table) (fs0 : FSState) (t : Table) :
    (runNotebook sampler fs0 t).1.writeDf = (t.drop droppedColumns).dropna
    ∧ (runNotebook sampler fs0 t).1.writeDf.cols
        = t.cols.filter (fun c => !(droppedColumns.contains c))
    ∧ (runNotebook sampler fs0 t).1.writeDf.rows
        = (t.rows.map (restrictRow t.cols droppedColumns)).filter rowComplete
    ∧ ∀ r ∈ (runNotebook sampler fs0 t).1.writeDf.rows,
        ∃ r0 ∈ t.rows, r = restrictRow t.cols droppedColumns r0 := by
  refine ⟨rfl, rfl, rfl, ?_⟩
  intro r hr
  have hr2 : r ∈ (t.rows.map (restrictRow t.cols droppedColumns)).filter rowComplete := hr
  rcases List.mem_filter.mp hr2 with ⟨hm, _⟩
  rcases List.mem_map.mp hm with ⟨r0, hr0, he⟩
  exact ⟨r0, hr0, he.symm⟩

/-- C1 witness: on the concrete table `dupTable` the first written row is the
restriction of an input row. -/
theorem C1_witness :
    ∃ r0 ∈ dupTable.rows,
      [some ("u1"), some ("1")] = restrictRow dupTable.cols droppedColumns r0 :=
  (C1_written_dataset_is_drop_then_dropna id fsEmpty dupTable).2.2.2
    [some ("u1"), some ("1")] (by decide)

/-- C2: the try/except of lines 103-107 is the only guard in the notebook and
it wraps exactly the `fs.drop_table` call; under any failure oracle that
spares the unguarded calls (in particular one that fails `fs.drop_table`),
every operation still runs and the run completes, and under any oracle that
fails some unguarded call, the run aborts. -/
theorem C2_only_drop_table_is_guarded :
    program.filter (fun s => !(s.isCall)) =
      [Stmt.tryIgnore (Op.fsDropTable featureTableName)]
    ∧ (∀ fails : Op → Bool, callsOk fails program = true →
        exec fails program = (programOps, true))
    ∧ (∀ fails : Op → Bool, callsOk fails program = false →
        (exec fails program).2 = false) := by
  refine ⟨by decide, ?_, ?_⟩
  · intro fails h
    exact exec_ok fails program h
  · intro fails h
    exact exec_abort fails program h

/-- C2 witness: when exactly the guarded `fs.drop_table` call fails, the whole
notebook still executes and completes. -/
theorem C2_witness :
    exec (fun o => o == Op.fsDropTable featureTableName) program
      = (programOps, true) :=
  C2_only_drop_table_is_guarded.2.1
    (fun o => o == Op.fsDropTable featureTableName) (by decide)

/-- C10: the written dataset, the training dataset, the classify calls and the
final feature-store state do not depend on the random sample used for
plotting: two runs with different samplers agree on all of them. -/
theorem C10_outputs_independent_of_sampling
    (fs0 : FSState) (t : Table) (s1 s2 : Table → Table) :
    (runNotebook s1 fs0 t).1.writeDf = (runNotebook s2 fs0 t).1.writeDf
    ∧ (runNotebook s1 fs0 t).1.train_dataset
        = (runNotebook s2 fs0 t).1.train_dataset
    ∧ (runNotebook s1 fs0 t).1.classifyCalls
        = (runNotebook s2 fs0 t).1.classifyCalls
    ∧ (runNotebook s1 fs0 t).2 = (runNotebook s2 fs0 t).2 :=
  ⟨rfl, rfl, rfl, rfl⟩

/-- C3: AutoML classification is invoked exactly once, on the dataset read
back from the feature-store table, with target column `churn`; the trace
contains exactly one classify operation and its target is `churn`. -/
theorem C3_automl_called_once_on_read_back
    (sampler : Table → Table) (fs0 : FSState) (t : Table) :
    (runNotebook sampler fs0 t).1.classifyCalls
        = [((t.drop droppedColumns).dropna, ("churn"))]
    ∧ (runNotebook sampler fs0 t).1.train_dataset
        = ((runNotebook sampler fs0 t).2).readTable featureTableName
    ∧ (programOps.filter (fun o => match o with
        | Op.automlClassify _ => true
        | _ => false)) = [Op.automlClassify ("churn")] :=
  ⟨rfl, rfl, by decide⟩

/-- C4: every feature-store operation in the trace names the single table
`rac_retail_demo.churn_user_features`; the table is created with primary key
`user_id` and the prepared dataset's schema, written with the prepared
dataset in `overwrite` mode, and the training dataset read back is exactly
the dataset that was written. -/
theorem C4_feature_store_single_table
    (sampler : Table → Table) (fs0 : FSState) (t : Table) :
    featureTableName = "rac_retail_demo.churn_user_features"
    ∧ (runNotebook sampler fs0 t).1.createName = featureTableName
    ∧ (runNotebook sampler fs0 t).1.createPrimaryKeys = "user_id"
    ∧ (runNotebook sampler fs0 t).1.createSchema = (prepareDataset t).cols
    ∧ (runNotebook sampler fs0 t).1.writeName = featureTableName
    ∧ (runNotebook sampler fs0 t).1.writeMode = "overwrite"
    ∧ (runNotebook sampler fs0 t).1.writeDf = prepareDataset t
    ∧ (runNotebook sampler fs0 t).1.train_dataset
        = some ((runNotebook sampler fs0 t).1.writeDf)
    ∧ (programOps.all (fun o => match fsTableName o with
        | some n => n == featureTableName
        | none => true)) = true :=
  ⟨rfl, rfl, rfl, rfl, rfl, rfl, rfl, rfl, by decide⟩

/-- C5: the trace positions of the notebook's steps are strictly increasing:
loading `churn_features`, sampling and plotting, reshaping with the pandas
API, converting for the data-wrangling add-on, writing the feature table,
reading it back, and classifying; each step occurs in the trace. -/
theorem C5_step_ordering :
    program.findIdx (fun s => s == Stmt.call (Op.sparkTable ("churn_features")))
      < program.findIdx (fun s => s == Stmt.call (Op.sampleAndPlot 1 100))
    ∧ program.findIdx (fun s => s == Stmt.call (Op.sampleAndPlot 1 100))
      < program.findIdx (fun s => s == Stmt.call Op.pandasApi)
    ∧ program.findIdx (fun s => s == Stmt.call Op.pandasApi)
      < program.findIdx (fun s => s == Stmt.call Op.toPandas)
    ∧ program.findIdx (fun s => s == Stmt.call Op.toPandas)
      < program.findIdx (fun s =>
          s == Stmt.call (Op.fsWriteTable featureTableName ("overwrite")))
    ∧ program.findIdx (fun s =>
          s == Stmt.call (Op.fsWriteTable featureTableName ("overwrite")))
      < program.findIdx (fun s => s == Stmt.call (Op.fsReadTable featureTableName))
    ∧ program.findIdx (fun s => s == Stmt.call (Op.fsReadTable featureTableName))
      < program.findIdx (fun s => s == Stmt.call (Op.automlClassify ("churn")))
    ∧ program.findIdx (fun s => s == Stmt.call (Op.automlClassify ("churn")))
      < program.length := by
  decide

/-- C6: the only row filtering between the loaded table and the written table
is the generic missing-value filter applied after the column drop; rows with
a duplicated `user_id` are both written unchanged (no deduplication), and
whether a row is kept never depends on the value of a non-missing cell, in
particular not on the label. -/
theorem C6_no_dedup_no_label_check :
    (∀ (sampler : Table → Table) (fs0 : FSState) (t : Table),
        (runNotebook sampler fs0 t).1.writeDf.rows
          = (t.drop droppedColumns).rows.filter rowComplete)
    ∧ (runNotebook id fsEmpty dupTable).1.writeDf.rows
        = [[some ("u1"), some ("1")], [some ("u1"), some ("0")]]
    ∧ (∀ (r : List Value) (v w : String),
        rowComplete (r ++ [some v]) = rowComplete (r ++ [some w])) := by
  refine ⟨fun _ _ _ => rfl, by decide, ?_⟩
  intro r v w
  simp [rowComplete]

/-- C7 counterexample: it is not the case that every statement of the notebook
is a direct, unguarded call — the `fs.drop_table` call is wrapped in a bare
try/except, which is locally implemented error handling. -/
theorem C7_counterexample :
    ¬ (∀ s ∈ program, s.isCall = true) := by
  decide

/-- C7 amended: every statement of the notebook is a direct call to a managed
platform API, except the single drop-table call, which is wrapped in a bare
try/except. -/
theorem C7_all_direct_calls_except_guarded_drop :
    ∀ s ∈ program,
      s.isCall = true ∨ s = Stmt.tryIgnore (Op.fsDropTable featureTableName) := by
  decide

/-- C7 witness: the display statement is a direct call. -/
theorem C7_witness :
    (Stmt.call Op.display).isCall = true
    ∨ Stmt.call Op.display = Stmt.tryIgnore (Op.fsDropTable featureTableName) :=
  C7_all_direct_calls_except_guarded_drop (Stmt.call Op.display) (by decide)

/-- C8: every persistently mutating operation in the trace targets the single
feature-store table; `churn_features` is read (it appears as a table read)
and never written; and the run leaves every feature-store table other than
`rac_retail_demo.churn_user_features` exactly as it was. -/
theorem C8_no_state_beyond_feature_table :
    (programOps.all (fun o => match writeTarget o with
        | some n => n == featureTableName
        | none => true)) = true
    ∧ Stmt.call (Op.sparkTable ("churn_features")) ∈ program
    ∧ (programOps.all (fun o =>
        !(writeTarget o == some ("churn_features")))) = true
    ∧ ∀ (sampler : Table → Table) (fs0 : FSState) (t : Table) (n : String),
        ¬ n = featureTableName →
        (runNotebook sampler fs0 t).2.readTable n = fs0.readTable n := by
  refine ⟨by decide, by decide, by decide, ?_⟩
  intro sampler fs0 t n hn
  have hbe : (featureTableName == n) = false := by
    refine beq_eq_false_iff_ne.mpr ?_
    intro he
    exact hn he.symm
  have hbne : (featureTableName != featureTableName) = false := by simp
  show (FSState.readTable _ n) = _
  simp only [runNotebook, FSState.dropTable, FSState.createTable,
    FSState.writeTable, FSState.readTable, List.find?, hbe,
    List.filter_cons, hbne, Bool.false_eq_true, if_false,
    find?_filter_ne n featureTableName hn]

/-- C8 witness: a run on the empty feature store leaves the unrelated name
`churn_features` absent, as it was before. -/
theorem C8_witness :
    (runNotebook id fsEmpty dupTable).2.readTable ("churn_features")
      = fsEmpty.readTable ("churn_features") :=
  C8_no_state_beyond_feature_table.2.2.2 id fsEmpty dupTable
    ("churn_features") (by decide)

/-- C9: the column drop never removes `user_id` or `churn`: whenever the input
table has both columns, the written dataset still has both, the created
table's schema contains the primary-key column `user_id`, and every classify
call's target column is a column of the dataset passed to it. -/
theorem C9_key_and_label_survive
    (sampler : Table → Table) (fs0 : FSState) (t : Table)
    (hu : "user_id" ∈ t.cols) (hc : "churn" ∈ t.cols) :
    "user_id" ∈ (runNotebook sampler fs0 t).1.writeDf.cols
    ∧ "churn" ∈ (runNotebook sampler fs0 t).1.writeDf.cols
    ∧ "user_id" ∈ (runNotebook sampler fs0 t).1.createSchema
    ∧ ∀ p ∈ (runNotebook sampler fs0 t).1.classifyCalls, p.2 ∈ p.1.cols := by
  have hu2 : "user_id" ∈ t.cols.filter (fun c => !(droppedColumns.contains c)) :=
    List.mem_filter.mpr ⟨hu, by decide⟩
  have hc2 : "churn" ∈ t.cols.filter (fun c => !(droppedColumns.contains c)) :=
    List.mem_filter.mpr ⟨hc, by decide⟩
  refine ⟨hu2, hc2, hu2, ?_⟩
  intro p hp
  have hp2 : p ∈ [((t.drop droppedColumns).dropna, ("churn" : String))] := hp
  have hp3 : p = ((t.drop droppedColumns).dropna, ("churn" : String)) := by
    simpa using hp2
  rw [hp3]
  exact hc2

/-- C9 witness: on the concrete table `dupTable`, which has both columns, the
written dataset keeps `user_id`. -/
theorem C9_witness :
    "user_id" ∈ (runNotebook id fsEmpty dupTable).1.writeDf.cols :=
  (C9_key_and_label_survive id fsEmpty dupTable (by decide) (by decide)).1

end Churn
